import Mathlib

/-!
Snudown: the rendering configuration and extension layer.

A shallow embedding of `src/snudown.c` (the Python extension module) and of the
link-attribute hook of `src/test_snudown_c/main.c`.

Conventions of the embedding:

* a `const char*` is the list of characters in front of its terminating NUL;
* a `struct buf` that is written with `bufput`, or read through `data` and `size` together,
  is the list of its `size` bytes, and appending to it is `++`;
* a `struct buf` whose `data` is read as a C string is a `buf`: the allocation behind
  `data` and the `size`;
* a C call with undefined behaviour (a null pointer handed to `strstr` or `strlen`, a
  string read that runs off the allocation) makes the embedded function return `none`;
* a `PyObject*` that may be `NULL` is an `Option`;
* the Markdown engine (`markdown.c`, `html.c`) is a parameter.
-/

namespace Snudown

/-! ## C strings -/

/-- Content of a NUL-terminated C string. -/
abbrev CStr := List Char

/-- `strcmp`: zero exactly on equal strings, otherwise the sign of the first difference. -/
def strcmp : CStr → CStr → Int
  | [], [] => 0
  | [], _ :: _ => -1
  | _ :: _, [] => 1
  | a :: as, b :: bs =>
    if a = b then strcmp as bs else if a.toNat < b.toNat then -1 else 1

/-- `strstr haystack needle`: the tail of `haystack` starting at the first occurrence of
`needle`, or `none` (the null pointer) when there is no occurrence. -/
def strstr : CStr → CStr → Option CStr
  | [], needle => if needle.isPrefixOf [] then some [] else none
  | c :: hay, needle =>
    if needle.isPrefixOf (c :: hay) then some (c :: hay) else strstr hay needle

/-- `strlen` followed by a copy of that many bytes: the bytes in front of the first NUL. -/
def cstr_of_bytes (bytes : List Char) : CStr :=
  bytes.takeWhile (fun c => c.toNat ≠ 0)

/-- `struct buf` (buffer.h) with the memory behind it: `data` is `none` for a null pointer
and otherwise the bytes of the allocation (`asize` of them), the first `size` of which are
the content of the buffer. Nothing terminates the content. -/
structure buf where
  data : Option (List Char)
  size : Nat

/-- The content of a buffer: the first `size` bytes at `data`. -/
def buf.content (b : buf) : List Char :=
  (b.data.getD []).take b.size

/-- The string a C string function reads at a `char*`: the bytes in front of the first NUL
of the allocation. `none` is the undefined behaviour of reading at a null pointer, or of
running off an allocation that holds no NUL. -/
def c_string_at (p : Option (List Char)) : Option CStr :=
  match p with
  | none => none
  | some bytes =>
    if bytes.all (fun c => c.toNat ≠ 0) then none else some (cstr_of_bytes bytes)

/-! ## Python objects, as far as the C API calls of the module observe them -/

/-- Object returned by a Python call, observed through `PyObject_IsTrue` and
`PyString_AsString`. -/
structure PyValue where
  /-- truth value; `none` when evaluating the truth of the object raises -/
  truth : Option Bool
  /-- bytes of the object when it is a string; `none` when it is not a string -/
  str : Option (List Char)

/-- Object handed to the module as a callback, observed through `PyCallable_Check` and
`PyObject_CallObject` on a one-string argument tuple. -/
structure PyObject where
  /-- a tag telling objects apart -/
  id : Nat
  callable : Bool
  /-- result of calling the object; `none` when the call raises -/
  call : List Char → Option PyValue

/-- `PyCallable_Check`. -/
def PyCallable_Check (o : PyObject) : Bool := o.callable

/-- `PyObject_CallObject`: `none` is the `NULL` result of a call that raised; calling an object
that isn't callable raises. -/
def PyObject_CallObject (o : PyObject) (arg : List Char) : Option PyValue :=
  if o.callable then o.call arg else none

/-- `PyObject_IsTrue`: 1, 0, or -1 on failure. -/
def PyObject_IsTrue (v : PyValue) : Int :=
  match v.truth with
  | some true => 1
  | some false => 0
  | none => -1

/-- `PyString_AsString`: the internal buffer, or `NULL` when the object is not a string. -/
def PyString_AsString (v : PyValue) : Option (List Char) := v.str

/-- Python exceptions the module sets. -/
inductive PyErr where
  | ValueError (msg : String)
  | TypeError (msg : String)
  deriving DecidableEq, Repr

/-! ## Render options -/

/-- Fields of `struct html_renderopt` (html.h) the module reads or writes. -/
structure html_renderopt where
  toc_id_prefix : Option CStr
  flags : Nat
  html_element_whitelist : List CStr
  html_attr_whitelist : List CStr

/-- `struct snudown_renderopt`. -/
structure snudown_renderopt where
  html : html_renderopt
  nofollow : Int
  target : Option CStr
  domain : Option CStr
  username_exists : Option PyObject
  username_to_display_name : Option PyObject

/-- `snudown_link_attr` of `snudown.c`: the output buffer after the call. The function reads
`link->data` as a C string and never reads `link->size`. `none` is the undefined behaviour
of `strstr` on a null `options->domain` or on a `link->data` that is no C string. -/
def snudown_link_attr (ob : List Char) (link : buf) (options : snudown_renderopt) :
    Option (List Char) :=
  let ob1 := if options.nofollow ≠ 0 then ob ++ " rel=\"nofollow\"".toList else ob
  match options.target with
  | none => some ob1
  | some target =>
    if strcmp target "_blank".toList ≠ 0 then
      some (ob1 ++ " target=\"".toList ++ target ++ "\"".toList)
    else
      match options.domain with
      | none => none
      | some domain =>
        match c_string_at link.data with
        | none => none
        | some haystack =>
          if (strstr haystack domain).isNone then
            some (ob1 ++ " target=\"".toList ++ target ++ "\"".toList)
          else some ob1

/-- `snudown_link_attr` of `test_snudown_c/main.c`, whose options have no `domain`. -/
def test_snudown_link_attr (ob : List Char) (nofollow : Int) (target : Option CStr) :
    List Char :=
  let ob1 := if nofollow ≠ 0 then ob ++ " rel=\"nofollow\"".toList else ob
  match target with
  | none => ob1
  | some target => ob1 ++ " target=\"".toList ++ target ++ "\"".toList

/-! ## The resolver bridge -/

/-- `snudown_user_exists`: the `int` handed back to the engine. -/
def snudown_user_exists (username : List Char) (options : snudown_renderopt) : Int :=
  match options.username_exists with
  | some callback =>
    match PyObject_CallObject callback username with
    | none => 0
    | some result => PyObject_IsTrue result
  | none => 0

/-- `snudown_username_to_display_name`: the `display_name` buffer after the call. `none` is
the undefined behaviour of `strlen` on the null pointer `PyString_AsString` returns for an
object that is not a string. -/
def snudown_username_to_display_name (display_name : List Char) (username : List Char)
    (options : snudown_renderopt) : Option (List Char) :=
  match options.username_to_display_name with
  | some callback =>
    match PyObject_CallObject callback username with
    | none => some (display_name ++ username)
    | some result =>
      match PyString_AsString result with
      | none => none
      | some username_from_callback =>
        some (display_name ++ cstr_of_bytes username_from_callback)
  | none => some (display_name ++ username)

/-! ## Renderers and module state -/

/-- Constants of `markdown.h` and `html.h`, and the flag words the two constructors of `html.c`
leave in a `html_renderopt`; those files are outside the sources at hand. -/
structure sundown_h where
  MKDEXT_NO_INTRA_EMPHASIS : Nat
  MKDEXT_SUPERSCRIPT : Nat
  MKDEXT_AUTOLINK : Nat
  MKDEXT_STRIKETHROUGH : Nat
  MKDEXT_TABLES : Nat
  HTML_SKIP_HTML : Nat
  HTML_SAFELINK : Nat
  HTML_ESCAPE : Nat
  HTML_USE_XHTML : Nat
  HTML_HARD_WRAP : Nat
  HTML_ALLOW_ELEMENT_WHITELIST : Nat
  HTML_TOC : Nat
  /-- flags `sdhtml_renderer` stores, given its `render_flags` argument -/
  sdhtml_renderer_flags : Nat → Nat
  /-- flags `sdhtml_toc_renderer` stores -/
  sdhtml_toc_renderer_flags : Nat

def RENDERER_USERTEXT : Int := 0
def RENDERER_WIKI : Int := 1
def RENDERER_COUNT : Int := 2

def html_element_whitelist : List CStr :=
  ["tr", "th", "td", "table", "tbody", "thead", "tfoot", "caption", "div"].map String.toList

def html_attr_whitelist : List CStr :=
  ["colspan", "rowspan", "cellspacing", "cellpadding", "scope", "class", "style"].map
    String.toList

def snudown_default_md_flags (h : sundown_h) : Nat :=
  h.MKDEXT_NO_INTRA_EMPHASIS ||| h.MKDEXT_SUPERSCRIPT ||| h.MKDEXT_AUTOLINK |||
    h.MKDEXT_STRIKETHROUGH ||| h.MKDEXT_TABLES

def snudown_default_render_flags (h : sundown_h) : Nat :=
  h.HTML_SKIP_HTML ||| h.HTML_SAFELINK ||| h.HTML_ESCAPE ||| h.HTML_USE_XHTML |||
    h.HTML_HARD_WRAP ||| h.HTML_ALLOW_ELEMENT_WHITELIST

/-- The callback table a `html.c` constructor installs. -/
inductive sd_callbacks where
  | zero
  | html
  | toc
  deriving DecidableEq, Repr

/-- `struct module_state`. -/
structure module_state where
  callbacks : sd_callbacks
  options : snudown_renderopt

/-- The four static `module_state` objects, as pointer targets. -/
inductive module_state_ptr where
  | usertext_toc_state
  | wiki_toc_state
  | usertext_state
  | wiki_state
  deriving DecidableEq, Repr

/-- What `sd_markdown_new` keeps in a `struct sd_markdown`: the extension flags, the nesting
limit, a copy of the callback table and the pointer to the options. -/
structure sd_markdown where
  ext_flags : Nat
  max_nesting : Nat
  cb : sd_callbacks
  /-- the pointer `sd_markdown_new` receives as its last argument -/
  options_ptr : module_state_ptr
  deriving DecidableEq, Repr

/-- `struct snudown_renderer`. -/
structure snudown_renderer where
  main_renderer : sd_markdown
  toc_renderer : sd_markdown
  state : module_state_ptr
  toc_state : module_state_ptr
  deriving DecidableEq, Repr

/-- Static storage of the module: the four `module_state` objects. -/
structure Globals where
  usertext_toc_state : module_state
  wiki_toc_state : module_state
  usertext_state : module_state
  wiki_state : module_state

/-- Read through a `module_state*`. -/
def Globals.deref (G : Globals) : module_state_ptr → module_state
  | .usertext_toc_state => G.usertext_toc_state
  | .wiki_toc_state => G.wiki_toc_state
  | .usertext_state => G.usertext_state
  | .wiki_state => G.wiki_state

/-- Write through a `module_state*`. -/
def Globals.store (G : Globals) (p : module_state_ptr) (s : module_state) : Globals :=
  match p with
  | .usertext_toc_state => { G with usertext_toc_state := s }
  | .wiki_toc_state => { G with wiki_toc_state := s }
  | .usertext_state => { G with usertext_state := s }
  | .wiki_state => { G with wiki_state := s }

/-- Write the `options` member through a `module_state*`. -/
def Globals.set_options (G : Globals) (p : module_state_ptr)
    (f : snudown_renderopt → snudown_renderopt) : Globals :=
  G.store p { G.deref p with options := f (G.deref p).options }

/-- Zero-initialised static `module_state`. -/
def module_state.zeroed : module_state :=
  { callbacks := .zero
    options :=
      { html := { toc_id_prefix := none, flags := 0, html_element_whitelist := [],
                  html_attr_whitelist := [] }
        nofollow := 0, target := none, domain := none
        username_exists := none, username_to_display_name := none } }

/-- `sdhtml_renderer` (html.c): clears the `html_renderopt` and stores the flags. -/
def sdhtml_renderer (h : sundown_h) (render_flags : Nat) : sd_callbacks × html_renderopt :=
  (.html, { toc_id_prefix := none, flags := h.sdhtml_renderer_flags render_flags,
            html_element_whitelist := [], html_attr_whitelist := [] })

/-- `sdhtml_toc_renderer` (html.c): clears the `html_renderopt` and stores its flags. -/
def sdhtml_toc_renderer (h : sundown_h) : sd_callbacks × html_renderopt :=
  (.toc, { toc_id_prefix := none, flags := h.sdhtml_toc_renderer_flags,
           html_element_whitelist := [], html_attr_whitelist := [] })

/-- `make_custom_renderer`: the state after the call and the new `sd_markdown`. The three
hook pointers it stores are the functions above. -/
def make_custom_renderer (h : sundown_h) (G : Globals) (state : module_state_ptr)
    (renderflags markdownflags : Nat) (toc_renderer : Int) : Globals × sd_markdown :=
  let r := if toc_renderer ≠ 0 then sdhtml_toc_renderer h else sdhtml_renderer h renderflags
  let st : module_state :=
    { callbacks := r.1
      options := { (G.deref state).options with
        html := { r.2 with html_element_whitelist := html_element_whitelist,
                           html_attr_whitelist := html_attr_whitelist } } }
  (G.store state st,
    { ext_flags := markdownflags, max_nesting := 16, cb := st.callbacks, options_ptr := state })

/-- `init_default_renderer`: the globals and `sundown[RENDERER_USERTEXT]`. -/
def init_default_renderer (h : sundown_h) (G : Globals) : Globals × snudown_renderer :=
  let m := make_custom_renderer h G .usertext_state (snudown_default_render_flags h)
    (snudown_default_md_flags h) 0
  let t := make_custom_renderer h m.1 .usertext_toc_state (snudown_default_render_flags h)
    (snudown_default_md_flags h) 1
  (t.1, { main_renderer := m.2, toc_renderer := t.2, state := .usertext_state,
          toc_state := .usertext_toc_state })

/-- `init_wiki_renderer`: the globals and `sundown[RENDERER_WIKI]`. -/
def init_wiki_renderer (h : sundown_h) (G : Globals) : Globals × snudown_renderer :=
  let m := make_custom_renderer h G .wiki_state (snudown_default_render_flags h)
    (snudown_default_md_flags h) 0
  let t := make_custom_renderer h m.1 .wiki_toc_state (snudown_default_render_flags h)
    (snudown_default_md_flags h) 1
  (t.1, { main_renderer := m.2, toc_renderer := t.2, state := .wiki_state,
          toc_state := .wiki_toc_state })

/-- Static storage before `initsnudown`. -/
def Globals.zeroed : Globals :=
  { usertext_toc_state := module_state.zeroed, wiki_toc_state := module_state.zeroed
    usertext_state := module_state.zeroed, wiki_state := module_state.zeroed }

/-- `initsnudown`: the module state after import. -/
def initsnudown (h : sundown_h) : Globals :=
  (init_wiki_renderer h (init_default_renderer h Globals.zeroed).1).1

/-- The array `sundown` as `initsnudown` fills it. -/
def sundown (h : sundown_h) : Nat → snudown_renderer
  | 0 => (init_default_renderer h Globals.zeroed).2
  | _ => (init_wiki_renderer h (init_default_renderer h Globals.zeroed).1).2

/-! ## The engine and the render entry point -/

/-- The Markdown engine: `sd_markdown_render ob doc size md` appends to `ob` a fragment that
is a function of the renderer, of the options its pointer designates at that moment,
and of the document. -/
structure Engine where
  sd_markdown_render : sd_markdown → snudown_renderopt → List Char → List Char

/-- One invocation of `sd_markdown_render`. -/
structure EngineCall where
  renderer : sd_markdown
  options : snudown_renderopt
  document : List Char

/-- The fragment an invocation produced. -/
def EngineCall.fragment (E : Engine) (c : EngineCall) : List Char :=
  E.sd_markdown_render c.renderer c.options c.document

/-- Locals of `snudown_md` after `PyArg_ParseTupleAndKeywords` succeeded. -/
structure md_args where
  text : List Char
  nofollow : Int := 0
  target : Option CStr := none
  domain : Option CStr := none
  toc_id_prefix : Option CStr := none
  renderer : Int := RENDERER_USERTEXT
  enable_toc : Int := 0

/-- Outcome of `snudown_md`: the returned string or the exception, the module state after
the call, and the engine invocations in order. -/
structure md_result where
  ret : Except PyErr (List Char)
  globals : Globals
  calls : List EngineCall

/-- `snudown_md`, from the range check on. -/
def snudown_md (h : sundown_h) (E : Engine) (G : Globals) (a : md_args) : md_result :=
  if a.renderer < 0 ∨ a.renderer ≥ RENDERER_COUNT then
    { ret := .error (.ValueError "Invalid renderer"), globals := G, calls := [] }
  else
    let _snudown := sundown h a.renderer.toNat
    let G1 := G.set_options _snudown.state
      (fun o => { o with nofollow := a.nofollow, target := a.target, domain := a.domain })
    let ob : List Char := []
    let flags := (G1.deref _snudown.state).options.html.flags
    let toc : Globals × List Char × List EngineCall :=
      if a.enable_toc ≠ 0 then
        let Ga := G1.set_options _snudown.toc_state
          (fun o => { o with html := { o.html with toc_id_prefix := a.toc_id_prefix } })
        let c : EngineCall :=
          { renderer := _snudown.toc_renderer
            options := (Ga.deref _snudown.toc_renderer.options_ptr).options
            document := a.text }
        let Gb := Ga.set_options _snudown.toc_state
          (fun o => { o with html := { o.html with toc_id_prefix := none } })
        let Gc := Gb.set_options _snudown.state
          (fun o => { o with html := { o.html with flags := o.html.flags ||| h.HTML_TOC } })
        (Gc, ob ++ c.fragment E, [c])
      else (G1, ob, [])
    let G2 := toc.1.set_options _snudown.state
      (fun o => { o with html := { o.html with toc_id_prefix := a.toc_id_prefix } })
    let c : EngineCall :=
      { renderer := _snudown.main_renderer
        options := (G2.deref _snudown.main_renderer.options_ptr).options
        document := a.text }
    let G3 := G2.set_options _snudown.state
      (fun o => { o with html := { o.html with toc_id_prefix := none, flags := flags } })
    { ret := .ok (toc.2.1 ++ c.fragment E), globals := G3, calls := toc.2.2 ++ [c] }

/-! ## Registration of the username callbacks -/

/-- `PyArg_ParseTuple(args, "OO:set_username_callbacks", ...)`: both items are required; on
success the two locals hold the two items of the tuple. -/
def PyArg_ParseTuple_OO (args : List PyObject) : Option (Option PyObject × Option PyObject) :=
  match args with
  | [username_exists, username_to_display_name] =>
    some (some username_exists, some username_to_display_name)
  | _ => none

/-- Outcome of `set_username_callbacks`. -/
structure callbacks_result where
  ret : Except PyErr Int
  globals : Globals

/-- `set_username_callbacks` after argument parsing, on its two locals. -/
def set_username_callbacks_checked (h : sundown_h) (G : Globals)
    (username_exists username_to_display_name : Option PyObject) : callbacks_result :=
  let bad (o : Option PyObject) : Bool :=
    match o with
    | some f => !PyCallable_Check f
    | none => false
  if bad username_exists then
    { ret := .error (.TypeError "parameter:<username_exists> must be callable"), globals := G }
  else if bad username_to_display_name then
    { ret := .error (.TypeError "parameter:<username_to_display_name> must be callable")
      globals := G }
  else
    { ret := .ok 1
      globals := G.set_options (sundown h RENDERER_USERTEXT.toNat).state
        (fun o => { o with username_exists := username_exists
                           username_to_display_name := username_to_display_name }) }

/-- `set_username_callbacks` on the positional argument tuple. -/
def set_username_callbacks (h : sundown_h) (G : Globals) (args : List PyObject) :
    callbacks_result :=
  match PyArg_ParseTuple_OO args with
  | none =>
    { ret := .error (.TypeError
        ("set_username_callbacks() takes exactly 2 arguments (" ++ toString args.length
          ++ " given)"))
      globals := G }
  | some (username_exists, username_to_display_name) =>
    set_username_callbacks_checked h G username_exists username_to_display_name

/-! ## Sequences of calls into the module -/

/-- A call a Python program makes into the module. -/
inductive ModuleCall where
  | markdown (a : md_args)
  | set_username_callbacks (args : List PyObject)

/-- Module state after one call. -/
def ModuleCall.step (h : sundown_h) (E : Engine) (G : Globals) : ModuleCall → Globals
  | .markdown a => (snudown_md h E G a).globals
  | .set_username_callbacks args => (Snudown.set_username_callbacks h G args).globals

/-- Module state after a sequence of calls. -/
def run_calls (h : sundown_h) (E : Engine) (G : Globals) (cs : List ModuleCall) : Globals :=
  cs.foldl (ModuleCall.step h E) G

/-- Module state after a sequence of renders. -/
def run_renders (h : sundown_h) (E : Engine) (G : Globals) (as : List md_args) : Globals :=
  as.foldl (fun G a => (snudown_md h E G a).globals) G

/-- The TOC pass of a render with TOC: the TOC renderer, on the TOC profile carrying the
caller's prefix. -/
def toc_pass (h : sundown_h) (G : Globals) (a : md_args) : EngineCall :=
  let rd := sundown h a.renderer.toNat
  let o := (G.deref rd.toc_state).options
  { renderer := rd.toc_renderer
    options := { o with html := { o.html with toc_id_prefix := a.toc_id_prefix } }
    document := a.text }

/-- The main pass of a render: the main renderer, on the main profile carrying the caller's
`nofollow`, `target`, `domain` and prefix, and `HTML_TOC` on top of its flags after a TOC
pass. -/
def main_pass (h : sundown_h) (G : Globals) (a : md_args) : EngineCall :=
  let rd := sundown h a.renderer.toNat
  let o := (G.deref rd.state).options
  { renderer := rd.main_renderer
    options :=
      { o with
        html := { o.html with
          toc_id_prefix := a.toc_id_prefix
          flags := if a.enable_toc ≠ 0 then o.html.flags ||| h.HTML_TOC else o.html.flags }
        nofollow := a.nofollow, target := a.target, domain := a.domain }
    document := a.text }

/-- Output flags a profile received when it was constructed. -/
def construction_flags (h : sundown_h) (p : module_state_ptr) : Nat :=
  ((initsnudown h).deref p).options.html.flags

/-- No profile has a `toc_id_prefix`. -/
def Globals.prefix_unset (G : Globals) : Prop :=
  ∀ p, (G.deref p).options.html.toc_id_prefix = none

/-- Every profile has the output flags it was constructed with. -/
def Globals.flags_as_constructed (h : sundown_h) (G : Globals) : Prop :=
  ∀ p, (G.deref p).options.html.flags = construction_flags h p

/-- Two module states that differ at most in the `nofollow`, `target` and `domain` members of
the two main profiles. -/
def Globals.agree (G G2 : Globals) : Prop :=
  G.deref .usertext_toc_state = G2.deref .usertext_toc_state ∧
  G.deref .wiki_toc_state = G2.deref .wiki_toc_state ∧
  (∀ p, (G.deref p).callbacks = (G2.deref p).callbacks ∧
    (G.deref p).options.html = (G2.deref p).options.html ∧
    (G.deref p).options.username_exists = (G2.deref p).options.username_exists ∧
    (G.deref p).options.username_to_display_name
      = (G2.deref p).options.username_to_display_name)

/-! ## Concrete inputs -/

/-- A header with one bit for each constant, in which `sdhtml_renderer` stores its argument
and `sdhtml_toc_renderer` stores `HTML_TOC`. -/
def bits_h : sundown_h :=
  { MKDEXT_NO_INTRA_EMPHASIS := 1, MKDEXT_SUPERSCRIPT := 128, MKDEXT_AUTOLINK := 8
    MKDEXT_STRIKETHROUGH := 16, MKDEXT_TABLES := 2
    HTML_SKIP_HTML := 1, HTML_SAFELINK := 32, HTML_ESCAPE := 512, HTML_USE_XHTML := 256
    HTML_HARD_WRAP := 128, HTML_ALLOW_ELEMENT_WHITELIST := 1024, HTML_TOC := 64
    sdhtml_renderer_flags := fun render_flags => render_flags
    sdhtml_toc_renderer_flags := 64 }

/-- An engine whose TOC pass emits `T` and whose main pass emits `M`. -/
def letter_engine : Engine :=
  { sd_markdown_render := fun md _ _ =>
      if md.cb = sd_callbacks.toc then "T".toList else "M".toList }

/-- Options with every member zero. -/
def zero_options : snudown_renderopt := module_state.zeroed.options

/-- A buffer that holds `s` and has a NUL right behind its content. -/
def terminated_buf (s : List Char) : buf :=
  { data := some (s ++ [Char.ofNat 0]), size := s.length }

/-- The link of `[a](http://x\0mysite.example/)`: 24 bytes with a NUL among them. -/
def link_with_nul : buf :=
  { data := some ("http://x".toList ++ [Char.ofNat 0] ++ "mysite.example/".toList
      ++ [Char.ofNat 0])
    size := 24 }

/-- The link `http://other.example/x` in a reused buffer: behind its 22 bytes the allocation
still holds bytes of an earlier, longer content. -/
def link_with_stale_tail : buf :=
  { data := some ("http://other.example/x".toList ++ "?mysite.example".toList
      ++ [Char.ofNat 0])
    size := 22 }

/-- The link `http://mysite.example/x` in an allocation of exactly its 23 bytes. -/
def link_unterminated : buf :=
  { data := some "http://mysite.example/x".toList, size := 23 }

/-- Options of a render with `target="_blank"` and `domain="mysite.example"`. -/
def blank_target_options : snudown_renderopt :=
  { zero_options with target := some "_blank".toList, domain := some "mysite.example".toList }

/-- A Python function returning an object whose truth evaluation raises. -/
def returns_untestable : PyObject :=
  { id := 1, callable := true, call := fun _ => some { truth := none, str := none } }

/-- A Python function returning the integer 42. -/
def returns_int : PyObject :=
  { id := 2, callable := true, call := fun _ => some { truth := some true, str := none } }

/-- A Python function returning its argument. -/
def returns_argument : PyObject :=
  { id := 3, callable := true
    call := fun name => some { truth := some (!name.isEmpty), str := some name } }

/-! ## Lemmas on the C string functions -/

theorem strcmp_eq_zero_iff (a b : CStr) : strcmp a b = 0 ↔ a = b := by
  induction a generalizing b with
  | nil => cases b <;> simp [strcmp]
  | cons x xs ih =>
    cases b with
    | nil => simp [strcmp]
    | cons y ys =>
      by_cases h : x = y
      · simp [strcmp, h, ih]
      · by_cases h2 : x.toNat < y.toNat <;> simp [strcmp, h, h2]

theorem strstr_isSome_iff (hay needle : CStr) :
    (strstr hay needle).isSome ↔ needle <:+: hay := by
  induction hay with
  | nil =>
    cases needle <;> simp [strstr, List.isPrefixOf]
  | cons c hay ih =>
    rw [List.infix_cons_iff]
    by_cases h : needle.isPrefixOf (c :: hay) = true
    · have h2 := List.isPrefixOf_iff_prefix.mp h
      simp [strstr, h, h2]
    · have h2 : ¬ needle <+: c :: hay := fun hp => h (List.isPrefixOf_iff_prefix.mpr hp)
      simp only [strstr, h, h2, false_or]
      simpa using ih

theorem strstr_isNone_iff (hay needle : CStr) :
    (strstr hay needle).isNone ↔ ¬ needle <:+: hay := by
  rw [← strstr_isSome_iff]
  cases strstr hay needle <;> simp


/-! ## Link decoration -/

theorem c_string_at_terminated (url rest : List Char) (hurl : ∀ c ∈ url, c.toNat ≠ 0) :
    c_string_at (some (url ++ Char.ofNat 0 :: rest)) = some url := by
  have htake : cstr_of_bytes (url ++ Char.ofNat 0 :: rest) = url := by
    unfold cstr_of_bytes
    induction url with
    | nil =>
      have h0 : (Char.ofNat 0).toNat = 0 := by decide
      simp [List.takeWhile, h0]
    | cons c cs ih =>
      have hc : c.toNat ≠ 0 := hurl c (List.mem_cons_self _ _)
      have hcs : ∀ d ∈ cs, d.toNat ≠ 0 := fun d hd => hurl d (List.mem_cons_of_mem _ hd)
      have ih2 := ih hcs
      have hd : decide (c.toNat ≠ 0) = true := decide_eq_true hc
      show List.takeWhile (fun c => decide (c.toNat ≠ 0)) (c :: (cs ++ Char.ofNat 0 :: rest))
        = c :: cs
      rw [List.takeWhile_cons, hd, if_pos rfl, ih2]
  have hall : (url ++ Char.ofNat 0 :: rest).all (fun c => c.toNat ≠ 0) = false := by
    rw [List.all_eq_false]
    exact ⟨Char.ofNat 0, by simp, by decide⟩
  simp only [c_string_at, hall, htake]
  rfl

/-- On a link buffer whose content holds no NUL and is followed by one, and with a non-null
exempt domain, `snudown_link_attr` appends the `rel="nofollow"` attribute exactly when
`nofollow` is set, followed by the `target` attribute exactly when a target is set and it is
not the case that the target is `_blank` and the content contains the domain. -/
theorem snudown_link_attr_terminated (ob url rest : List Char)
    (hurl : ∀ c ∈ url, c.toNat ≠ 0) (html : html_renderopt)
    (nofollow : Int) (target : Option CStr) (domain : CStr)
    (username_exists username_to_display_name : Option PyObject) :
    snudown_link_attr ob { data := some (url ++ Char.ofNat 0 :: rest), size := url.length }
        ⟨html, nofollow, target, some domain, username_exists, username_to_display_name⟩
      = some (ob ++ (if nofollow ≠ 0 then " rel=\"nofollow\"".toList else [])
          ++ (match target with
              | some t =>
                if ¬ (t = "_blank".toList ∧ domain <:+: url) then
                  " target=\"".toList ++ t ++ "\"".toList
                else []
              | none => [])) := by
  simp only [snudown_link_attr, c_string_at_terminated url rest hurl]
  generalize "_blank".toList = blank
  generalize " target=\"".toList = opening
  generalize "\"".toList = closing
  generalize " rel=\"nofollow\"".toList = rel
  cases target with
  | none => by_cases hn : nofollow = 0 <;> simp [hn]
  | some t =>
    by_cases ht : t = blank
    · subst ht
      have h0 : strcmp t t = 0 := (strcmp_eq_zero_iff _ _).mpr rfl
      by_cases hi : domain <:+: url
      · have hs : (strstr url domain).isNone = false := by
          have := (strstr_isSome_iff url domain).mpr hi
          cases hx : strstr url domain <;> simp_all
        by_cases hn : nofollow = 0 <;> simp [hn, h0, hs, hi]
      · have hs : (strstr url domain).isNone = true := (strstr_isNone_iff url domain).mpr hi
        by_cases hn : nofollow = 0 <;> simp [hn, h0, hs, hi]
    · have h0 : strcmp t blank ≠ 0 := fun hc => ht ((strcmp_eq_zero_iff _ _).mp hc)
      by_cases hn : nofollow = 0 <;> simp [hn, h0, ht]

/-- C1: `snudown_link_attr` runs `strstr` from `link->data` to the next NUL, not over the
`link->size` bytes of the link. With target `_blank` and domain `mysite.example`: a link
that contains the domain behind a NUL byte gets the target attribute; a link that does not
contain the domain, in a buffer whose allocation holds the domain behind the content, gets
no target attribute; and on a buffer without a NUL the call has no defined result. -/
theorem snudown_link_attr_ignores_size :
    ("mysite.example".toList <:+: link_with_nul.content
      ∧ snudown_link_attr [] link_with_nul blank_target_options
          = some " target=\"_blank\"".toList)
    ∧ (¬ "mysite.example".toList <:+: link_with_stale_tail.content
      ∧ link_with_stale_tail.content = "http://other.example/x".toList
      ∧ snudown_link_attr [] link_with_stale_tail blank_target_options = some [])
    ∧ ("mysite.example".toList <:+: link_unterminated.content
      ∧ snudown_link_attr [] link_unterminated blank_target_options = none) := by
  refine ⟨⟨?_, ?_⟩, ⟨?_, ?_, ?_⟩, ⟨?_, ?_⟩⟩ <;> decide

/-- C10: with target `_blank` and no exempt domain (the default of the render entry point),
`snudown_link_attr` of `snudown.c` hands the null domain to `strstr` and has no defined
result, whereas the hook of `test_snudown_c/main.c` emits the target attribute. -/
theorem snudown_link_attr_null_domain :
    snudown_link_attr [] (terminated_buf "http://x".toList)
        { zero_options with target := some "_blank".toList, domain := none } = none
    ∧ test_snudown_link_attr [] 0 (some "_blank".toList) = " target=\"_blank\"".toList := by
  constructor <;> decide

/-! ## Resolver bridge -/

/-- The value `snudown_user_exists` returns, case by case. -/
theorem snudown_user_exists_eq (username : List Char) (options : snudown_renderopt) :
    snudown_user_exists username options =
      match options.username_exists with
      | none => 0
      | some callback =>
        match PyObject_CallObject callback username with
        | none => 0
        | some result =>
          match result.truth with
          | some true => 1
          | some false => 0
          | none => -1 := by
  rcases options with ⟨html, nofollow, target, domain, ue, utd⟩
  cases ue with
  | none => rfl
  | some callback => rfl

/-- C5: when the registered existence callback returns an object whose truth evaluation
fails, `snudown_user_exists` returns -1, which is neither false (0) nor true (1). -/
theorem snudown_user_exists_truth_failure :
    snudown_user_exists "bob".toList
        { zero_options with username_exists := some returns_untestable } = -1 := by
  decide

/-- C6: when the registered display-name callback returns an object that is not a string,
`snudown_username_to_display_name` passes a null pointer to `strlen` and has no defined
result, instead of appending the original username. -/
theorem snudown_username_to_display_name_not_a_string :
    snudown_username_to_display_name [] "bob".toList
        { zero_options with username_to_display_name := some returns_int } = none := by
  decide

/-- The display-name hook on the paths that are defined: without a callback, and when the
call raises, the username is appended; a returned string is appended up to its first NUL. -/
theorem snudown_username_to_display_name_eq (display_name username : List Char)
    (options : snudown_renderopt) :
    snudown_username_to_display_name display_name username options =
      match options.username_to_display_name with
      | none => some (display_name ++ username)
      | some callback =>
        match PyObject_CallObject callback username with
        | none => some (display_name ++ username)
        | some result =>
          match result.str with
          | none => none
          | some s => some (display_name ++ s.takeWhile (fun c => c.toNat ≠ 0)) := by
  rcases options with ⟨html, nofollow, target, domain, ue, utd⟩
  cases utd with
  | none => rfl
  | some callback => rfl

/-! ## Registering the callbacks -/

/-- When `set_username_callbacks` succeeds: exactly on a tuple of two callable objects. -/
theorem set_username_callbacks_ok_iff (h : sundown_h) (G : Globals) (args : List PyObject) :
    (set_username_callbacks h G args).ret = .ok 1 ↔
      ∃ f g, args = [f, g] ∧ f.callable = true ∧ g.callable = true := by
  unfold set_username_callbacks PyArg_ParseTuple_OO
  match args with
  | [] => simp
  | [_] => simp
  | [f, g] =>
    constructor
    · intro hret
      refine ⟨f, g, rfl, ?_, ?_⟩ <;> by_contra hc <;>
        by_cases hf : f.callable = true <;>
        simp_all [set_username_callbacks_checked, PyCallable_Check]
    · rintro ⟨f1, g1, he, hf, hg⟩
      cases he
      simp [set_username_callbacks_checked, PyCallable_Check, hf, hg]
  | _ :: _ :: _ :: _ => simp

/-- C7: a call that supplies one callable argument and leaves the other out is rejected with
a `TypeError` by the argument parser, and the module state stays as it was. -/
theorem set_username_callbacks_absent_argument :
    (set_username_callbacks bits_h (initsnudown bits_h) [returns_argument]).ret
      = .error (.TypeError "set_username_callbacks() takes exactly 2 arguments (1 given)")
    ∧ (set_username_callbacks bits_h (initsnudown bits_h) [returns_argument]).globals
      = initsnudown bits_h := by
  constructor <;> rfl

/-! ## The render entry point -/

theorem sundown_zero (h : sundown_h) :
    sundown h 0 =
      { main_renderer := ⟨snudown_default_md_flags h, 16, .html, .usertext_state⟩
        toc_renderer := ⟨snudown_default_md_flags h, 16, .toc, .usertext_toc_state⟩
        state := .usertext_state, toc_state := .usertext_toc_state } := rfl

theorem sundown_one (h : sundown_h) :
    sundown h 1 =
      { main_renderer := ⟨snudown_default_md_flags h, 16, .html, .wiki_state⟩
        toc_renderer := ⟨snudown_default_md_flags h, 16, .toc, .wiki_toc_state⟩
        state := .wiki_state, toc_state := .wiki_toc_state } := rfl

theorem renderer_cases (a : md_args) (hv : ¬ (a.renderer < 0 ∨ a.renderer ≥ RENDERER_COUNT)) :
    a.renderer = 0 ∨ a.renderer = 1 := by
  unfold RENDERER_COUNT at hv
  omega

/-- C2: `snudown_md` raises `ValueError("Invalid renderer")` exactly when the renderer is
neither `RENDERER_USERTEXT` nor `RENDERER_WIKI`; in that case it returns no string, does not
invoke the engine and leaves the whole module state as it was. -/
theorem snudown_md_invalid_renderer (h : sundown_h) (E : Engine) (G : Globals) (a : md_args) :
    ((snudown_md h E G a).ret = .error (.ValueError "Invalid renderer") ↔
        ¬ (a.renderer = RENDERER_USERTEXT ∨ a.renderer = RENDERER_WIKI))
    ∧ (¬ (a.renderer = RENDERER_USERTEXT ∨ a.renderer = RENDERER_WIKI) →
        (∀ out, (snudown_md h E G a).ret ≠ .ok out)
        ∧ (snudown_md h E G a).calls = []
        ∧ (snudown_md h E G a).globals = G) := by
  have hiff : (a.renderer < 0 ∨ a.renderer ≥ RENDERER_COUNT) ↔
      ¬ (a.renderer = RENDERER_USERTEXT ∨ a.renderer = RENDERER_WIKI) := by
    unfold RENDERER_COUNT RENDERER_USERTEXT RENDERER_WIKI
    omega
  by_cases hv : a.renderer < 0 ∨ a.renderer ≥ RENDERER_COUNT
  · have hbad := hiff.mp hv
    have hdef : snudown_md h E G a =
        { ret := .error (.ValueError "Invalid renderer"), globals := G, calls := [] } := by
      simp only [snudown_md, if_pos hv]
    rw [hdef]
    refine ⟨⟨fun _ => hbad, fun _ => rfl⟩, fun _ => ⟨?_, rfl, rfl⟩⟩
    intro out hc
    cases hc
  · have hgood : ¬ ¬ (a.renderer = RENDERER_USERTEXT ∨ a.renderer = RENDERER_WIKI) :=
      fun hc => hv (hiff.mpr hc)
    refine ⟨⟨fun hc => ?_, fun hc => absurd hc hgood⟩, fun hc => absurd hc hgood⟩
    simp [snudown_md, hv] at hc

theorem snudown_md_invalid_renderer_witness :
    (snudown_md bits_h letter_engine (initsnudown bits_h)
        { text := "x".toList, renderer := 2 }).calls = []
    ∧ (snudown_md bits_h letter_engine (initsnudown bits_h)
        { text := "x".toList, renderer := 2 }).globals = initsnudown bits_h :=
  ((snudown_md_invalid_renderer bits_h letter_engine (initsnudown bits_h)
      { text := "x".toList, renderer := 2 }).2 (by decide)).2

@[simp]
theorem deref_store_same (G : Globals) (p : module_state_ptr) (s : module_state) :
    (G.store p s).deref p = s := by
  cases p <;> rfl

@[simp]
theorem deref_store_ne (G : Globals) (p q : module_state_ptr) (s : module_state)
    (hne : p ≠ q) : (G.store p s).deref q = G.deref q := by
  cases p <;> cases q <;> first | rfl | exact absurd rfl hne

@[simp]
theorem deref_set_options_same (G : Globals) (p : module_state_ptr)
    (f : snudown_renderopt → snudown_renderopt) :
    (G.set_options p f).deref p = { G.deref p with options := f (G.deref p).options } := by
  simp [Globals.set_options]

@[simp]
theorem deref_set_options_ne (G : Globals) (p q : module_state_ptr)
    (f : snudown_renderopt → snudown_renderopt) (hne : p ≠ q) :
    (G.set_options p f).deref q = G.deref q := by
  simp [Globals.set_options, hne]

/-- The module state after a valid render, profile by profile. -/
theorem snudown_md_globals_deref (h : sundown_h) (E : Engine) (G : Globals) (a : md_args)
    (hv : ¬ (a.renderer < 0 ∨ a.renderer ≥ RENDERER_COUNT)) (p : module_state_ptr) :
    ((snudown_md h E G a).globals.deref p) =
      if p = (sundown h a.renderer.toNat).state then
        { G.deref p with options := { (G.deref p).options with
            html := { (G.deref p).options.html with toc_id_prefix := none }
            nofollow := a.nofollow, target := a.target, domain := a.domain } }
      else if p = (sundown h a.renderer.toNat).toc_state ∧ a.enable_toc ≠ 0 then
        { G.deref p with options := { (G.deref p).options with
            html := { (G.deref p).options.html with toc_id_prefix := none } } }
      else G.deref p := by
  simp only [snudown_md, if_neg hv]
  rcases renderer_cases a hv with hr | hr <;> by_cases ht : a.enable_toc = 0 <;>
    cases p <;> simp [hr, ht, sundown_zero, sundown_one]

/-- The engine invocations of a valid render. -/
theorem snudown_md_calls (h : sundown_h) (E : Engine) (G : Globals) (a : md_args)
    (hv : ¬ (a.renderer < 0 ∨ a.renderer ≥ RENDERER_COUNT)) :
    (snudown_md h E G a).calls =
      (if a.enable_toc ≠ 0 then [toc_pass h G a] else []) ++ [main_pass h G a] := by
  simp only [snudown_md, if_neg hv]
  rcases renderer_cases a hv with hr | hr <;> by_cases ht : a.enable_toc = 0 <;>
    simp [hr, ht, sundown_zero, sundown_one, toc_pass, main_pass]

/-- The string a valid render returns. -/
theorem snudown_md_ret (h : sundown_h) (E : Engine) (G : Globals) (a : md_args)
    (hv : ¬ (a.renderer < 0 ∨ a.renderer ≥ RENDERER_COUNT)) :
    (snudown_md h E G a).ret =
      .ok ((if a.enable_toc ≠ 0 then (toc_pass h G a).fragment E else [])
        ++ (main_pass h G a).fragment E) := by
  simp only [snudown_md, if_neg hv]
  rcases renderer_cases a hv with hr | hr <;> by_cases ht : a.enable_toc = 0 <;>
    simp [hr, ht, sundown_zero, sundown_one, toc_pass, main_pass]

/-! ## Invariants of the module state -/

theorem html_prefix_cleared (x : html_renderopt) (hx : x.toc_id_prefix = none) :
    { x with toc_id_prefix := none } = x := by
  cases x
  simp_all

theorem prefix_unset_init (h : sundown_h) : (initsnudown h).prefix_unset := by
  intro p
  cases p <;> rfl

theorem flags_as_constructed_init (h : sundown_h) :
    (initsnudown h).flags_as_constructed h := fun _ => rfl

theorem snudown_md_html (h : sundown_h) (E : Engine) (G : Globals) (a : md_args)
    (hG : G.prefix_unset) (p : module_state_ptr) :
    ((snudown_md h E G a).globals.deref p).options.html = (G.deref p).options.html := by
  by_cases hv : a.renderer < 0 ∨ a.renderer ≥ RENDERER_COUNT
  · simp only [snudown_md, if_pos hv]
  · rw [snudown_md_globals_deref h E G a hv p]
    split
    · exact html_prefix_cleared _ (hG p)
    · split
      · exact html_prefix_cleared _ (hG p)
      · rfl

theorem set_username_callbacks_html (h : sundown_h) (G : Globals) (args : List PyObject)
    (p : module_state_ptr) :
    ((set_username_callbacks h G args).globals.deref p).options.html
      = (G.deref p).options.html := by
  unfold set_username_callbacks PyArg_ParseTuple_OO
  match args with
  | [] => rfl
  | [_] => rfl
  | [f, g] =>
    by_cases hf : f.callable = true <;> by_cases hg : g.callable = true <;>
      cases p <;>
      simp [set_username_callbacks_checked, PyCallable_Check, hf, hg, sundown_zero,
        RENDERER_USERTEXT]
  | _ :: _ :: _ :: _ => rfl

theorem step_html (h : sundown_h) (E : Engine) (G : Globals) (c : ModuleCall)
    (hG : G.prefix_unset) (p : module_state_ptr) :
    ((c.step h E G).deref p).options.html = (G.deref p).options.html := by
  cases c with
  | markdown a => exact snudown_md_html h E G a hG p
  | set_username_callbacks args => exact set_username_callbacks_html h G args p

theorem run_calls_html (h : sundown_h) (E : Engine) (cs : List ModuleCall) (G : Globals)
    (hG : G.prefix_unset) (p : module_state_ptr) :
    ((run_calls h E G cs).deref p).options.html = (G.deref p).options.html := by
  induction cs generalizing G with
  | nil => rfl
  | cons c cs ih =>
    have hstep : (c.step h E G).prefix_unset := fun q => by
      rw [step_html h E G c hG q]
      exact hG q
    have := ih (c.step h E G) hstep
    simp only [run_calls, List.foldl_cons] at this ⊢
    rw [this, step_html h E G c hG p]

/-- In every state the module reaches, no profile carries a `toc_id_prefix`. -/
theorem prefix_unset_reachable (h : sundown_h) (E : Engine) (cs : List ModuleCall) :
    (run_calls h E (initsnudown h) cs).prefix_unset := fun p => by
  rw [run_calls_html h E cs _ (prefix_unset_init h) p]
  exact prefix_unset_init h p

/-- In every state the module reaches, every profile has its construction-time flags. -/
theorem flags_reachable (h : sundown_h) (E : Engine) (cs : List ModuleCall) :
    (run_calls h E (initsnudown h) cs).flags_as_constructed h := fun p => by
  rw [run_calls_html h E cs _ (prefix_unset_init h) p]
  rfl

/-! ## The passes of a render -/

/-- C9: on a state the module reaches, a valid render without TOC invokes the engine once,
with the main renderer of the surface, the caller's prefix and the construction-time flags;
with TOC it invokes the engine twice on the same document, first with the TOC renderer and
the caller's prefix, then with the main renderer, the same prefix and the construction-time
flags or-ed with `HTML_TOC`; each renderer reads the profile of its name; afterwards the main
profile has its construction-time flags again and neither profile has a prefix. -/
theorem snudown_md_passes (h : sundown_h) (E : Engine) (cs : List ModuleCall) (a : md_args)
    (hv : a.renderer = RENDERER_USERTEXT ∨ a.renderer = RENDERER_WIKI) :
    (a.enable_toc = 0 →
      (snudown_md h E (run_calls h E (initsnudown h) cs) a).calls.map (fun c => c.renderer)
        = [(sundown h a.renderer.toNat).main_renderer]
      ∧ (snudown_md h E (run_calls h E (initsnudown h) cs) a).calls.map (fun c => c.document)
        = [a.text]
      ∧ (snudown_md h E (run_calls h E (initsnudown h) cs) a).calls.map
          (fun c => c.options.html.toc_id_prefix) = [a.toc_id_prefix]
      ∧ (snudown_md h E (run_calls h E (initsnudown h) cs) a).calls.map
          (fun c => c.options.html.flags)
        = [construction_flags h (sundown h a.renderer.toNat).state])
    ∧ (a.enable_toc ≠ 0 →
      (snudown_md h E (run_calls h E (initsnudown h) cs) a).calls.map (fun c => c.renderer)
        = [(sundown h a.renderer.toNat).toc_renderer,
           (sundown h a.renderer.toNat).main_renderer]
      ∧ (snudown_md h E (run_calls h E (initsnudown h) cs) a).calls.map (fun c => c.document)
        = [a.text, a.text]
      ∧ (snudown_md h E (run_calls h E (initsnudown h) cs) a).calls.map
          (fun c => c.options.html.toc_id_prefix) = [a.toc_id_prefix, a.toc_id_prefix]
      ∧ (snudown_md h E (run_calls h E (initsnudown h) cs) a).calls.map
          (fun c => c.options.html.flags)
        = [construction_flags h (sundown h a.renderer.toNat).toc_state,
           construction_flags h (sundown h a.renderer.toNat).state ||| h.HTML_TOC])
    ∧ (sundown h a.renderer.toNat).main_renderer.options_ptr
        = (sundown h a.renderer.toNat).state
    ∧ (sundown h a.renderer.toNat).toc_renderer.options_ptr
        = (sundown h a.renderer.toNat).toc_state
    ∧ ((snudown_md h E (run_calls h E (initsnudown h) cs) a).globals.deref
          (sundown h a.renderer.toNat).state).options.html.flags
        = construction_flags h (sundown h a.renderer.toNat).state
    ∧ ((snudown_md h E (run_calls h E (initsnudown h) cs) a).globals.deref
          (sundown h a.renderer.toNat).state).options.html.toc_id_prefix = none
    ∧ ((snudown_md h E (run_calls h E (initsnudown h) cs) a).globals.deref
          (sundown h a.renderer.toNat).toc_state).options.html.toc_id_prefix = none := by
  have hv2 : ¬ (a.renderer < 0 ∨ a.renderer ≥ RENDERER_COUNT) := by
    unfold RENDERER_COUNT
    unfold RENDERER_USERTEXT RENDERER_WIKI at hv
    omega
  have hnp := prefix_unset_reachable h E cs
  have hfl := flags_reachable h E cs
  generalize run_calls h E (initsnudown h) cs = G at hnp hfl ⊢
  have hafter : ∀ p, ((snudown_md h E G a).globals.deref p).options.html
      = (G.deref p).options.html := snudown_md_html h E G a hnp
  rw [snudown_md_calls h E G a hv2]
  refine ⟨?_, ?_, ?_, ?_, ?_, ?_, ?_⟩
  · intro ht
    simp [ht, main_pass, hfl _]
  · intro ht
    simp [ht, main_pass, toc_pass, hfl _]
  · rcases renderer_cases a hv2 with hr | hr <;> simp [hr, sundown_zero, sundown_one]
  · rcases renderer_cases a hv2 with hr | hr <;> simp [hr, sundown_zero, sundown_one]
  · rw [hafter]
    exact hfl _
  · rw [hafter]
    exact hnp _
  · rw [hafter]
    exact hnp _

theorem snudown_md_passes_witness :
    (snudown_md bits_h letter_engine
        (run_calls bits_h letter_engine (initsnudown bits_h)
          [.markdown { text := "a".toList, nofollow := 1, enable_toc := 1 }])
        { text := "# b".toList, toc_id_prefix := some "p".toList, renderer := 1,
          enable_toc := 1 }).calls.map (fun c => c.options.html.flags)
      = [construction_flags bits_h (sundown bits_h 1).toc_state,
         construction_flags bits_h (sundown bits_h 1).state ||| bits_h.HTML_TOC] :=
  ((snudown_md_passes bits_h letter_engine
      [.markdown { text := "a".toList, nofollow := 1, enable_toc := 1 }]
      { text := "# b".toList, toc_id_prefix := some "p".toList, renderer := 1,
        enable_toc := 1 } (Or.inr rfl)).2.1 (by decide)).2.2.2

/-! ## What a render returns -/

/-- C8, as stated, fails: with TOC enabled and an engine whose TOC pass emits `T` and whose
main pass emits `M`, the main pass produces `M` but the render returns `TM`. -/
theorem snudown_md_returns_toc_bytes :
    (snudown_md bits_h letter_engine (initsnudown bits_h)
        { text := "# a".toList, enable_toc := 1 }).calls.map (EngineCall.fragment letter_engine)
      = ["T".toList, "M".toList]
    ∧ (snudown_md bits_h letter_engine (initsnudown bits_h)
        { text := "# a".toList, enable_toc := 1 }).ret = .ok "TM".toList
    ∧ (snudown_md bits_h letter_engine (initsnudown bits_h)
        { text := "# a".toList, enable_toc := 1 }).ret ≠ .ok "M".toList := by
  refine ⟨rfl, rfl, ?_⟩
  intro hc
  have hret : (snudown_md bits_h letter_engine (initsnudown bits_h)
      { text := "# a".toList, enable_toc := 1 }).ret = .ok "TM".toList := rfl
  rw [hret] at hc
  injection hc with hc
  exact absurd hc (by decide)

/-- C8, amended: a valid render without TOC invokes the engine once, with the main renderer,
and returns exactly the fragment of that pass; a valid render with TOC invokes the engine
twice, with the TOC renderer and then the main renderer, and returns the fragment of the TOC
pass followed by the fragment of the main pass. -/
theorem snudown_md_returns (h : sundown_h) (E : Engine) (G : Globals) (a : md_args)
    (hv : a.renderer = RENDERER_USERTEXT ∨ a.renderer = RENDERER_WIKI) :
    (a.enable_toc = 0 →
      ∃ m, (snudown_md h E G a).calls = [m]
        ∧ m.renderer = (sundown h a.renderer.toNat).main_renderer
        ∧ (snudown_md h E G a).ret = .ok (m.fragment E))
    ∧ (a.enable_toc ≠ 0 →
      ∃ t m, (snudown_md h E G a).calls = [t, m]
        ∧ t.renderer = (sundown h a.renderer.toNat).toc_renderer
        ∧ m.renderer = (sundown h a.renderer.toNat).main_renderer
        ∧ (snudown_md h E G a).ret = .ok (t.fragment E ++ m.fragment E)) := by
  have hv2 : ¬ (a.renderer < 0 ∨ a.renderer ≥ RENDERER_COUNT) := by
    unfold RENDERER_COUNT
    unfold RENDERER_USERTEXT RENDERER_WIKI at hv
    omega
  rw [snudown_md_calls h E G a hv2, snudown_md_ret h E G a hv2]
  constructor
  · intro ht
    exact ⟨main_pass h G a, by simp [ht], rfl, by simp [ht]⟩
  · intro ht
    exact ⟨toc_pass h G a, main_pass h G a, by simp [ht], rfl, rfl, by simp [ht]⟩

theorem snudown_md_returns_witness :
    ∃ t m, (snudown_md bits_h letter_engine (initsnudown bits_h)
        { text := "# a".toList, enable_toc := 1 }).calls = [t, m]
      ∧ t.renderer = (sundown bits_h 0).toc_renderer
      ∧ m.renderer = (sundown bits_h 0).main_renderer
      ∧ (snudown_md bits_h letter_engine (initsnudown bits_h)
          { text := "# a".toList, enable_toc := 1 }).ret
        = .ok (t.fragment letter_engine ++ m.fragment letter_engine) :=
  (snudown_md_returns bits_h letter_engine (initsnudown bits_h)
    { text := "# a".toList, enable_toc := 1 } (Or.inl rfl)).2 (by decide)

/-! ## Transient fields -/

/-- C3, as stated, fails: a first render with `nofollow = 1` leaves `nofollow = 1` in the
usertext profile, which held 0 before the call. -/
theorem snudown_md_keeps_nofollow :
    ((initsnudown bits_h).deref (sundown bits_h 0).state).options.nofollow = 0
    ∧ ((snudown_md bits_h letter_engine (initsnudown bits_h)
        { text := "x".toList, nofollow := 1 }).globals.deref
          (sundown bits_h 0).state).options.nofollow = 1 := by
  constructor <;> rfl

/-- C3, amended: on a state the module reaches, a render that fails leaves the whole module
state as it was; after a render that succeeds, the main profile of the selected surface has
the `toc_id_prefix` and the flags it had before the call, and its `nofollow`, `target` and
`domain` hold the arguments of this call. -/
theorem snudown_md_transient_fields (h : sundown_h) (E : Engine) (cs : List ModuleCall)
    (a : md_args) :
    (¬ (a.renderer = RENDERER_USERTEXT ∨ a.renderer = RENDERER_WIKI) →
      (snudown_md h E (run_calls h E (initsnudown h) cs) a).globals
        = run_calls h E (initsnudown h) cs)
    ∧ ((a.renderer = RENDERER_USERTEXT ∨ a.renderer = RENDERER_WIKI) →
      ((snudown_md h E (run_calls h E (initsnudown h) cs) a).globals.deref
          (sundown h a.renderer.toNat).state).options.html.toc_id_prefix
        = ((run_calls h E (initsnudown h) cs).deref
            (sundown h a.renderer.toNat).state).options.html.toc_id_prefix
      ∧ ((snudown_md h E (run_calls h E (initsnudown h) cs) a).globals.deref
          (sundown h a.renderer.toNat).state).options.html.flags
        = ((run_calls h E (initsnudown h) cs).deref
            (sundown h a.renderer.toNat).state).options.html.flags
      ∧ ((snudown_md h E (run_calls h E (initsnudown h) cs) a).globals.deref
          (sundown h a.renderer.toNat).state).options.nofollow = a.nofollow
      ∧ ((snudown_md h E (run_calls h E (initsnudown h) cs) a).globals.deref
          (sundown h a.renderer.toNat).state).options.target = a.target
      ∧ ((snudown_md h E (run_calls h E (initsnudown h) cs) a).globals.deref
          (sundown h a.renderer.toNat).state).options.domain = a.domain) := by
  have hnp := prefix_unset_reachable h E cs
  generalize run_calls h E (initsnudown h) cs = G at hnp ⊢
  have hiff : (a.renderer < 0 ∨ a.renderer ≥ RENDERER_COUNT) ↔
      ¬ (a.renderer = RENDERER_USERTEXT ∨ a.renderer = RENDERER_WIKI) := by
    unfold RENDERER_COUNT RENDERER_USERTEXT RENDERER_WIKI
    omega
  constructor
  · intro hbad
    simp only [snudown_md, if_pos (hiff.mpr hbad)]
  · intro hgood
    have hv : ¬ (a.renderer < 0 ∨ a.renderer ≥ RENDERER_COUNT) := fun hc => hiff.mp hc hgood
    have hhtml := snudown_md_html h E G a hnp (sundown h a.renderer.toNat).state
    refine ⟨by rw [hhtml], by rw [hhtml], ?_, ?_, ?_⟩ <;>
      rw [snudown_md_globals_deref h E G a hv] <;> simp

theorem snudown_md_transient_fields_witness :
    ((snudown_md bits_h letter_engine
        (run_calls bits_h letter_engine (initsnudown bits_h) [])
        { text := "x".toList, nofollow := 1, renderer := 1 }).globals.deref
          (sundown bits_h 1).state).options.nofollow = 1 :=
  ((snudown_md_transient_fields bits_h letter_engine []
      { text := "x".toList, nofollow := 1, renderer := 1 }).2 (Or.inr rfl)).2.2.1

/-! ## Independence from earlier renders -/

theorem agree_symm {G G2 : Globals} (hag : G.agree G2) : G2.agree G :=
  ⟨hag.1.symm, hag.2.1.symm, fun p =>
    ⟨(hag.2.2 p).1.symm, (hag.2.2 p).2.1.symm, (hag.2.2 p).2.2.1.symm,
      (hag.2.2 p).2.2.2.symm⟩⟩

theorem agree_trans {G G2 G3 : Globals} (h12 : G.agree G2) (h23 : G2.agree G3) :
    G.agree G3 :=
  ⟨h12.1.trans h23.1, h12.2.1.trans h23.2.1, fun p =>
    ⟨(h12.2.2 p).1.trans (h23.2.2 p).1, (h12.2.2 p).2.1.trans (h23.2.2 p).2.1,
      (h12.2.2 p).2.2.1.trans (h23.2.2 p).2.2.1,
      (h12.2.2 p).2.2.2.trans (h23.2.2 p).2.2.2⟩⟩

/-- A render returns the same on two states that agree. -/
theorem snudown_md_ret_of_agree (h : sundown_h) (E : Engine) {G G2 : Globals}
    (hag : G.agree G2) (a : md_args) :
    (snudown_md h E G a).ret = (snudown_md h E G2 a).ret := by
  by_cases hv : a.renderer < 0 ∨ a.renderer ≥ RENDERER_COUNT
  · simp only [snudown_md, if_pos hv]
  · rw [snudown_md_ret h E G a hv, snudown_md_ret h E G2 a hv]
    obtain ⟨hut, hwt, hall⟩ := hag
    have htoc : toc_pass h G a = toc_pass h G2 a := by
      rcases renderer_cases a hv with hr | hr <;>
        simp [toc_pass, hr, sundown_zero, sundown_one, hut, hwt]
    have hmain : main_pass h G a = main_pass h G2 a := by
      rcases renderer_cases a hv with hr | hr
      · obtain ⟨_, h1, h2, h3⟩ := hall .usertext_state
        simp [main_pass, hr, sundown_zero, h1, h2, h3]
      · obtain ⟨_, h1, h2, h3⟩ := hall .wiki_state
        simp [main_pass, hr, sundown_one, h1, h2, h3]
    rw [htoc, hmain]

/-- A render leaves a state that agrees with the one it started from. -/
theorem snudown_md_globals_agree (h : sundown_h) (E : Engine) (G : Globals) (a : md_args)
    (hG : G.prefix_unset) : (snudown_md h E G a).globals.agree G := by
  by_cases hv : a.renderer < 0 ∨ a.renderer ≥ RENDERER_COUNT
  · simp only [snudown_md, if_pos hv]
    exact ⟨rfl, rfl, fun _ => ⟨rfl, rfl, rfl, rfl⟩⟩
  · have hstruct : ∀ (x : module_state), x.options.html.toc_id_prefix = none →
        ({ x with options := { x.options with
            html := { x.options.html with toc_id_prefix := none } } } : module_state) = x := by
      intro x hx
      rcases x with ⟨cb, ⟨⟨pre, fl, ew, aw⟩, nf, tg, dm, ue, ud⟩⟩
      simp_all
    refine ⟨?_, ?_, fun p => ?_⟩
    · rw [snudown_md_globals_deref h E G a hv]
      rcases renderer_cases a hv with hr | hr <;> by_cases ht : a.enable_toc = 0 <;>
        simp [hr, ht, sundown_zero, sundown_one, hstruct _ (hG _)]
    · rw [snudown_md_globals_deref h E G a hv]
      rcases renderer_cases a hv with hr | hr <;> by_cases ht : a.enable_toc = 0 <;>
        simp [hr, ht, sundown_zero, sundown_one, hstruct _ (hG _)]
    · rw [snudown_md_globals_deref h E G a hv]
      have hp := hG p
      split
      · exact ⟨rfl, html_prefix_cleared _ hp, rfl, rfl⟩
      · split
        · exact ⟨rfl, html_prefix_cleared _ hp, rfl, rfl⟩
        · exact ⟨rfl, rfl, rfl, rfl⟩

theorem run_renders_agree (h : sundown_h) (E : Engine) (as : List md_args) (G : Globals)
    (hG : G.prefix_unset) : (run_renders h E G as).agree G := by
  induction as generalizing G with
  | nil => exact ⟨rfl, rfl, fun _ => ⟨rfl, rfl, rfl, rfl⟩⟩
  | cons a as ih =>
    have hstep : (snudown_md h E G a).globals.prefix_unset := fun q => by
      rw [snudown_md_html h E G a hG q]
      exact hG q
    have h1 := ih (snudown_md h E G a).globals hstep
    have h2 := snudown_md_globals_agree h E G a hG
    simp only [run_renders, List.foldl_cons] at h1 ⊢
    exact agree_trans h1 h2

/-- C4: for a deterministic engine and whatever callbacks were registered, a render returns
the same result in any two states reached by sequences of earlier renders; in particular
the same request made twice in a row returns the same result both times. -/
theorem snudown_md_independent_of_history (h : sundown_h) (E : Engine)
    (cs : List ModuleCall) (as1 as2 : List md_args) (a : md_args) :
    (snudown_md h E (run_renders h E (run_calls h E (initsnudown h) cs) as1) a).ret
      = (snudown_md h E (run_renders h E (run_calls h E (initsnudown h) cs) as2) a).ret
    ∧ (snudown_md h E
        (snudown_md h E (run_renders h E (run_calls h E (initsnudown h) cs) as1) a).globals
        a).ret
      = (snudown_md h E (run_renders h E (run_calls h E (initsnudown h) cs) as1) a).ret := by
  have hnp := prefix_unset_reachable h E cs
  generalize run_calls h E (initsnudown h) cs = G at hnp ⊢
  have h1 := run_renders_agree h E as1 G hnp
  have h2 := run_renders_agree h E as2 G hnp
  refine ⟨snudown_md_ret_of_agree h E (agree_trans h1 (agree_symm h2)) a, ?_⟩
  have hnp1 : (run_renders h E G as1).prefix_unset := fun p => by
    rw [(h1.2.2 p).2.1]
    exact hnp p
  exact snudown_md_ret_of_agree h E (snudown_md_globals_agree h E _ a hnp1) a

end Snudown
